import Mathlib

/-!
# ALD3D: begin-query render-graph node and integer-math function node

A shallow embedding of

* `source/blender/gpu/vulkan/render_graph/nodes/vk_begin_query_node.hh`
  (`VKBeginQueryData`, `VKBeginQueryNode`), and
* `source/blender/nodes/function/nodes/node_fn_integer_math.cc`
  (`node_update`, `get_multi_function`),

followed by the theorems about them.

Conventions.  A C++ method that takes mutable references becomes a function
returning the new values of everything it could have written.  C++ `int` is a
mathematical `Int` together with the range `INT_MIN ≤ x ≤ INT_MAX`; an
operation whose behaviour the language leaves undefined yields `none`.
-/

namespace blender.gpu.render_graph

/-! ## Vulkan handle and flag types -/

/-- A `VkQueryPool` is a non-dispatchable Vulkan handle: an identity only. -/
abbrev VkQueryPool := Nat

/-- The `VkQueryControlFlags` bit mask. -/
abbrev VkQueryControlFlags := Nat

/-- The `VkPipelineStageFlags` bit mask. -/
abbrev VkPipelineStageFlags := Nat

/-- The Vulkan constant `VK_PIPELINE_STAGE_NONE`. -/
def VK_PIPELINE_STAGE_NONE : VkPipelineStageFlags := 0

/-- Information stored inside the render graph node (`vk_begin_query_node.hh`, lines 18-22). -/
structure VKBeginQueryData where
  vk_query_pool : VkQueryPool
  query_index : Nat
  vk_query_control_flags : VkQueryControlFlags
deriving DecidableEq, Repr

/-! ## Collaborator types that the header only names -/

/-- Modelled from the spec: the declaration of `VKNodeType` is not part of the sources at hand.
The spec calls it a closed enumeration of node kinds and lists begin-query, end-query, draw,
copy and barrier. -/
inductive VKNodeType where
  | BEGIN_QUERY
  | END_QUERY
  | DRAW
  | COPY
  | BARRIER
deriving DecidableEq, Repr

/-- Modelled from the spec: the declaration of `VKResourceType` is not part of the sources at
hand.  The spec names images and buffers as the tracked resources; `NONE` is the value the
begin-query node passes. -/
inductive VKResourceType where
  | NONE
  | IMAGE
  | BUFFER
deriving DecidableEq, Repr

/-- Modelled from the spec: `VKNodeInfo` (from `vk_node_info.hh`, not part of the sources at
hand) is the templated base class; its three non-type template arguments are the static facts
of a node kind: the kind tag, the pipeline stage and the resource-usage class. -/
structure VKNodeInfo where
  node_type : VKNodeType
  pipeline_stage : VkPipelineStageFlags
  resource_usages : VKResourceType
deriving DecidableEq, Repr

/-- Modelled from the spec: an identifier of a GPU resource, identity only. -/
abbrev ResourceHandle := Nat

/-- Modelled from the spec: the kind of the last access to a resource. -/
inductive AccessKind where
  | read
  | write
deriving DecidableEq, Repr

/-- Modelled from the spec: one entry of the resource ledger, the last-known access
(access kind, pipeline stage, optional image layout). -/
structure ResourceAccessState where
  access : AccessKind
  stage : VkPipelineStageFlags
  layout : Option Nat
deriving DecidableEq, Repr

/-- Modelled from the spec: `VKResourceStateTracker` is not part of the sources at hand.  It is
the ledger that maps a resource handle to its last-known access; `record_access` adds to it and
nothing is ever removed. -/
structure VKResourceStateTracker where
  accesses : List (ResourceHandle × ResourceAccessState)
deriving DecidableEq, Repr

/-- Modelled from the spec: one dependency edge, a pair (resource, access kind). -/
structure VKRenderGraphLink where
  resource : ResourceHandle
  access : AccessKind
deriving DecidableEq, Repr

/-- Modelled from the spec: `VKRenderGraphNodeLinks` is not part of the sources at hand.  It
holds the read edges (`inputs`) and the write edges (`outputs`) that a node introduces. -/
structure VKRenderGraphNodeLinks where
  inputs : List VKRenderGraphLink
  outputs : List VKRenderGraphLink
deriving DecidableEq, Repr

/-- The number of edges held by a node-links value. -/
def VKRenderGraphNodeLinks.edge_count (l : VKRenderGraphNodeLinks) : Nat :=
  l.inputs.length + l.outputs.length

/-- Modelled from the spec: the native commands that the command-buffer abstraction exposes,
one operation per command; `begin_query(pool, index, flags)` is the one that the begin-query
node calls, the others stand for the remaining node kinds. -/
inductive VKCommand where
  | begin_query (vk_query_pool : VkQueryPool) (query_index : Nat)
      (vk_query_control_flags : VkQueryControlFlags)
  | end_query (vk_query_pool : VkQueryPool) (query_index : Nat)
  | bind_pipeline (vk_pipeline : Nat)
  | draw (vertex_count instance_count first_vertex first_instance : Nat)
  | copy_buffer (src dst : ResourceHandle)
  | pipeline_barrier (src_stage dst_stage : VkPipelineStageFlags)
deriving DecidableEq, Repr

/-- Modelled from the spec: `VKCommandBufferInterface` is an abstract class that is not part of
the sources at hand.  Its state is the sequence of calls recorded so far, oldest first. -/
structure VKCommandBufferInterface where
  commands : List VKCommand
deriving DecidableEq, Repr

/-- The interface method `begin_query(pool, index, flags)`: it records the call. -/
def VKCommandBufferInterface.begin_query (command_buffer : VKCommandBufferInterface)
    (vk_query_pool : VkQueryPool) (query_index : Nat)
    (vk_query_control_flags : VkQueryControlFlags) : VKCommandBufferInterface :=
  { commands := command_buffer.commands ++
      [VKCommand.begin_query vk_query_pool query_index vk_query_control_flags] }

/-- Modelled from the spec: `VKBoundPipelines` is not part of the sources at hand.  It records
which graphics and which compute pipeline is currently bound on the command buffer. -/
structure VKBoundPipelines where
  graphics : Option Nat
  compute : Option Nat
deriving DecidableEq, Repr

/-- Modelled from the spec: `set_node_data` is a template over the node type, and
`VKRenderGraphNode` is not part of the sources at hand.  A node has a kind tag, the
`begin_query` payload that the template writes, and whatever else it stores (`rest`). -/
structure VKRenderGraphNode (ρ : Type) where
  type : VKNodeType
  begin_query : VKBeginQueryData
  rest : ρ
deriving DecidableEq, Repr

/-! ## `VKBeginQueryNode` -/

namespace VKBeginQueryNode

/-- The alias `CreateInfo` of the base class: its second template argument. -/
abbrev CreateInfo := VKBeginQueryData

/-- The alias `Data` of the base class: its third template argument. -/
abbrev Data := VKBeginQueryData

/-- The template arguments that `VKBeginQueryNode` passes to its base class (lines 31-35). -/
def node_info : VKNodeInfo :=
  { node_type := VKNodeType.BEGIN_QUERY
    pipeline_stage := VK_PIPELINE_STAGE_NONE
    resource_usages := VKResourceType.NONE }

/-- The method `set_node_data` (lines 44-47): `node.begin_query = create_info;`. -/
def set_node_data {ρ : Type} (node : VKRenderGraphNode ρ) (create_info : CreateInfo) :
    VKRenderGraphNode ρ :=
  { node with begin_query := create_info }

/-- The method `build_links` (lines 52-56): the body is empty, none of the three arguments is
named.  The result is the tracker and the node links after the call. -/
def build_links (resources : VKResourceStateTracker) (node_links : VKRenderGraphNodeLinks)
    (_create_info : CreateInfo) : VKResourceStateTracker × VKRenderGraphNodeLinks :=
  (resources, node_links)

/-- The method `build_commands` (lines 61-66): one call of `command_buffer.begin_query`.  The
result is the command buffer, the node data and the bound pipelines after the call. -/
def build_commands (command_buffer : VKCommandBufferInterface) (data : Data)
    (r_bound_pipelines : VKBoundPipelines) :
    VKCommandBufferInterface × Data × VKBoundPipelines :=
  (command_buffer.begin_query data.vk_query_pool data.query_index data.vk_query_control_flags,
   data, r_bound_pipelines)

end VKBeginQueryNode

end blender.gpu.render_graph

namespace blender.nodes.node_fn_integer_math_cc

/-! ## C++ `int` arithmetic -/

/-- The least value of a 32-bit `int`. -/
def INT_MIN : Int := -2147483648

/-- The greatest value of a 32-bit `int`. -/
def INT_MAX : Int := 2147483647

/-- Whether a mathematical integer is a value of the type `int`. -/
def is_int (x : Int) : Prop := INT_MIN ≤ x ∧ x ≤ INT_MAX

instance (x : Int) : Decidable (is_int x) := by
  unfold is_int
  infer_instance

/-- The value of an `int` expression whose mathematical result is `x`: the behaviour is undefined
(`none`) when the result is not in the range of representable values of `int`. -/
def as_int (x : Int) : Option Int :=
  if is_int x then some x else none

/-- The built-in `a % b` on `int`: the remainder of the division truncated towards zero.  When
`b` is zero the behaviour is undefined, and when the quotient `a / b` is not representable in
`int` the behaviour of both `a / b` and `a % b` is undefined. -/
def int_rem (a b : Int) : Option Int :=
  if b = 0 then none
  else (as_int (Int.tdiv a b)).bind (fun _ => some (Int.tmod a b))

/-! ## The operation enumeration and the helpers from other files -/

/-- The eighteen enumerators of `NodeIntegerMathOperation`, in the order of the `switch` of
`get_multi_function` (lines 157-194).  The declaration of the enumeration, and with it the
integer value of each enumerator, is not part of the sources at hand: the values are a parameter
(`value`) of the definitions below. -/
inductive NodeIntegerMathOperation where
  | NODE_INTEGER_MATH_ADD
  | NODE_INTEGER_MATH_SUBTRACT
  | NODE_INTEGER_MATH_MULTIPLY
  | NODE_INTEGER_MATH_DIVIDE
  | NODE_INTEGER_MATH_DIVIDE_FLOOR
  | NODE_INTEGER_MATH_DIVIDE_CEIL
  | NODE_INTEGER_MATH_DIVIDE_ROUND
  | NODE_INTEGER_MATH_POWER
  | NODE_INTEGER_MATH_MULTIPLY_ADD
  | NODE_INTEGER_MATH_FLOORED_MODULO
  | NODE_INTEGER_MATH_MODULO
  | NODE_INTEGER_MATH_ABSOLUTE
  | NODE_INTEGER_MATH_SIGN
  | NODE_INTEGER_MATH_MINIMUM
  | NODE_INTEGER_MATH_MAXIMUM
  | NODE_INTEGER_MATH_GCD
  | NODE_INTEGER_MATH_LCM
  | NODE_INTEGER_MATH_NEGATE
deriving DecidableEq, Repr

open NodeIntegerMathOperation

/-- The position of an enumerator in the `switch`: one assignment of pairwise different values
to the eighteen enumerators. -/
def switch_position : NodeIntegerMathOperation → Int
  | NODE_INTEGER_MATH_ADD => 0
  | NODE_INTEGER_MATH_SUBTRACT => 1
  | NODE_INTEGER_MATH_MULTIPLY => 2
  | NODE_INTEGER_MATH_DIVIDE => 3
  | NODE_INTEGER_MATH_DIVIDE_FLOOR => 4
  | NODE_INTEGER_MATH_DIVIDE_CEIL => 5
  | NODE_INTEGER_MATH_DIVIDE_ROUND => 6
  | NODE_INTEGER_MATH_POWER => 7
  | NODE_INTEGER_MATH_MULTIPLY_ADD => 8
  | NODE_INTEGER_MATH_FLOORED_MODULO => 9
  | NODE_INTEGER_MATH_MODULO => 10
  | NODE_INTEGER_MATH_ABSOLUTE => 11
  | NODE_INTEGER_MATH_SIGN => 12
  | NODE_INTEGER_MATH_MINIMUM => 13
  | NODE_INTEGER_MATH_MAXIMUM => 14
  | NODE_INTEGER_MATH_GCD => 15
  | NODE_INTEGER_MATH_LCM => 16
  | NODE_INTEGER_MATH_NEGATE => 17

/-- The functions that the lambdas of `get_multi_function` call and that are defined in other
files (`math::` of the BLI library, `std::gcd`, `std::lcm`) and the conversions between `int` and
`float`, over a type `F` of `float` values.  They are parameters of the embedding. -/
structure MathFunctions (F : Type) where
  safe_divide : Int → Int → Option Int
  to_float : Int → F
  safe_divide_float : F → F → F
  floor : F → F
  ceil : F → F
  round : F → F
  to_int : F → Option Int
  pow : Int → Int → Option Int
  mod_periodic : Int → Int → Option Int
  abs : Int → Option Int
  sign : Int → Option Int
  min : Int → Int → Option Int
  max : Int → Int → Option Int
  gcd : Int → Int → Option Int
  lcm : Int → Int → Option Int

/-- One instance of the helper functions, over `F := Int`, for evaluating the embedding on
concrete inputs. -/
def sample_math : MathFunctions Int where
  safe_divide := fun a b => if b = 0 then some 0 else as_int (Int.tdiv a b)
  to_float := fun a => a
  safe_divide_float := fun a b => if b = 0 then 0 else Int.tdiv a b
  floor := fun x => x
  ceil := fun x => x
  round := fun x => x
  to_int := as_int
  pow := fun a b => as_int (a ^ b.toNat)
  mod_periodic := fun a b => as_int (Int.fmod a b)
  abs := fun a => as_int (Int.natAbs a)
  sign := fun a => some (Int.sign a)
  min := fun a b => some (Min.min a b)
  max := fun a b => some (Max.max a b)
  gcd := fun a b => as_int (Int.gcd a b)
  lcm := fun a b => as_int (Int.lcm a b)

/-! ## Multi-functions -/

/-- The element function of a multi-function built by `mf::build::SI1_SO`, `SI2_SO` or `SI3_SO`:
one, two or three single-value `int` inputs and one single-value `int` output. -/
inductive ElementFn where
  | SI1_SO (fn : Int → Option Int)
  | SI2_SO (fn : Int → Int → Option Int)
  | SI3_SO (fn : Int → Int → Int → Option Int)

/-- A multi-function object: the name given to the builder and the element function. -/
structure MultiFunction where
  name : String
  element_fn : ElementFn

/-- Apply a multi-function to a list of input values; `none` when the number of values is not
the number of inputs or when the element function has undefined behaviour on them. -/
def MultiFunction.call (f : MultiFunction) (args : List Int) : Option Int :=
  match f.element_fn, args with
  | ElementFn.SI1_SO fn, [a] => fn a
  | ElementFn.SI2_SO fn, [a, b] => fn a b
  | ElementFn.SI3_SO fn, [a, b, c] => fn a b c
  | _, _ => none

section functions

variable {F : Type} (m : MathFunctions F)

/-- The static `add_fn` (lines 112-113). -/
def add_fn : MultiFunction :=
  ⟨"Add", ElementFn.SI2_SO (fun a b => as_int (a + b))⟩

/-- The static `sub_fn` (lines 114-115). -/
def sub_fn : MultiFunction :=
  ⟨"Subtract", ElementFn.SI2_SO (fun a b => as_int (a - b))⟩

/-- The static `multiply_fn` (lines 116-117). -/
def multiply_fn : MultiFunction :=
  ⟨"Multiply", ElementFn.SI2_SO (fun a b => as_int (a * b))⟩

/-- The static `divide_fn` (lines 118-119). -/
def divide_fn : MultiFunction :=
  ⟨"Divide", ElementFn.SI2_SO (fun a b => m.safe_divide a b)⟩

/-- The static `divide_floor_fn` (lines 120-123). -/
def divide_floor_fn : MultiFunction :=
  ⟨"Divide Floor", ElementFn.SI2_SO (fun a b =>
    m.to_int (m.floor (m.safe_divide_float (m.to_float a) (m.to_float b))))⟩

/-- The static `divide_ceil_fn` (lines 124-127). -/
def divide_ceil_fn : MultiFunction :=
  ⟨"Divide Ceil", ElementFn.SI2_SO (fun a b =>
    m.to_int (m.ceil (m.safe_divide_float (m.to_float a) (m.to_float b))))⟩

/-- The static `divide_round_fn` (lines 128-131). -/
def divide_round_fn : MultiFunction :=
  ⟨"Divide Round", ElementFn.SI2_SO (fun a b =>
    m.to_int (m.round (m.safe_divide_float (m.to_float a) (m.to_float b))))⟩

/-- The static `pow_fn` (lines 132-133). -/
def pow_fn : MultiFunction :=
  ⟨"Power", ElementFn.SI2_SO (fun a b => m.pow a b)⟩

/-- The static `madd_fn` (lines 134-135): `a * b + c`. -/
def madd_fn : MultiFunction :=
  ⟨"Multiply Add", ElementFn.SI3_SO (fun a b c => (as_int (a * b)).bind (fun p => as_int (p + c)))⟩

/-- The static `floored_mod_fn` (lines 136-139): `b != 0 ? math::mod_periodic(a, b) : 0`. -/
def floored_mod_fn : MultiFunction :=
  ⟨"Floored Modulo", ElementFn.SI2_SO (fun a b => if b ≠ 0 then m.mod_periodic a b else some 0)⟩

/-- The static `mod_fn` (lines 140-141): `b != 0 ? a % b : 0`. -/
def mod_fn : MultiFunction :=
  ⟨"Modulo", ElementFn.SI2_SO (fun a b => if b ≠ 0 then int_rem a b else some 0)⟩

/-- The static `abs_fn` (lines 142-143). -/
def abs_fn : MultiFunction :=
  ⟨"Absolute", ElementFn.SI1_SO (fun a => m.abs a)⟩

/-- The static `sign_fn` (lines 144-145). -/
def sign_fn : MultiFunction :=
  ⟨"Sign", ElementFn.SI1_SO (fun a => m.sign a)⟩

/-- The static `min_fn` (lines 146-147). -/
def min_fn : MultiFunction :=
  ⟨"Minimum", ElementFn.SI2_SO (fun a b => m.min a b)⟩

/-- The static `max_fn` (lines 148-149). -/
def max_fn : MultiFunction :=
  ⟨"Maximum", ElementFn.SI2_SO (fun a b => m.max a b)⟩

/-- The static `gcd_fn` (lines 150-151). -/
def gcd_fn : MultiFunction :=
  ⟨"GCD", ElementFn.SI2_SO (fun a b => m.gcd a b)⟩

/-- The static `lcm_fn` (lines 152-153). -/
def lcm_fn : MultiFunction :=
  ⟨"LCM", ElementFn.SI2_SO (fun a b => m.lcm a b)⟩

/-- The static `negate_fn` (lines 154-155): `-a`. -/
def negate_fn : MultiFunction :=
  ⟨"Negate", ElementFn.SI1_SO (fun a => as_int (-a))⟩

/-- The function `get_multi_function` (lines 108-197).  `custom1` is the field `bnode.custom1`
and `value` gives the integer value of each enumerator.  The `switch` compares `operation` with
the case labels, which C++ requires to be pairwise different; when no label matches, control
reaches `BLI_assert_unreachable(); return nullptr;`, which is the result `none`. -/
def get_multi_function (value : NodeIntegerMathOperation → Int) (custom1 : Int) :
    Option MultiFunction :=
  let operation := custom1
  if operation = value NODE_INTEGER_MATH_ADD then some add_fn
  else if operation = value NODE_INTEGER_MATH_SUBTRACT then some sub_fn
  else if operation = value NODE_INTEGER_MATH_MULTIPLY then some multiply_fn
  else if operation = value NODE_INTEGER_MATH_DIVIDE then some (divide_fn m)
  else if operation = value NODE_INTEGER_MATH_DIVIDE_FLOOR then some (divide_floor_fn m)
  else if operation = value NODE_INTEGER_MATH_DIVIDE_CEIL then some (divide_ceil_fn m)
  else if operation = value NODE_INTEGER_MATH_DIVIDE_ROUND then some (divide_round_fn m)
  else if operation = value NODE_INTEGER_MATH_POWER then some (pow_fn m)
  else if operation = value NODE_INTEGER_MATH_MULTIPLY_ADD then some madd_fn
  else if operation = value NODE_INTEGER_MATH_FLOORED_MODULO then some (floored_mod_fn m)
  else if operation = value NODE_INTEGER_MATH_MODULO then some mod_fn
  else if operation = value NODE_INTEGER_MATH_ABSOLUTE then some (abs_fn m)
  else if operation = value NODE_INTEGER_MATH_SIGN then some (sign_fn m)
  else if operation = value NODE_INTEGER_MATH_MINIMUM then some (min_fn m)
  else if operation = value NODE_INTEGER_MATH_MAXIMUM then some (max_fn m)
  else if operation = value NODE_INTEGER_MATH_GCD then some (gcd_fn m)
  else if operation = value NODE_INTEGER_MATH_LCM then some (lcm_fn m)
  else if operation = value NODE_INTEGER_MATH_NEGATE then some negate_fn
  else none

end functions

/-- The function that the `case` of an operation returns (lines 158-193). -/
def case_result {F : Type} (m : MathFunctions F) : NodeIntegerMathOperation → MultiFunction
  | NODE_INTEGER_MATH_ADD => add_fn
  | NODE_INTEGER_MATH_SUBTRACT => sub_fn
  | NODE_INTEGER_MATH_MULTIPLY => multiply_fn
  | NODE_INTEGER_MATH_DIVIDE => divide_fn m
  | NODE_INTEGER_MATH_DIVIDE_FLOOR => divide_floor_fn m
  | NODE_INTEGER_MATH_DIVIDE_CEIL => divide_ceil_fn m
  | NODE_INTEGER_MATH_DIVIDE_ROUND => divide_round_fn m
  | NODE_INTEGER_MATH_POWER => pow_fn m
  | NODE_INTEGER_MATH_MULTIPLY_ADD => madd_fn
  | NODE_INTEGER_MATH_FLOORED_MODULO => floored_mod_fn m
  | NODE_INTEGER_MATH_MODULO => mod_fn
  | NODE_INTEGER_MATH_ABSOLUTE => abs_fn m
  | NODE_INTEGER_MATH_SIGN => sign_fn m
  | NODE_INTEGER_MATH_MINIMUM => min_fn m
  | NODE_INTEGER_MATH_MAXIMUM => max_fn m
  | NODE_INTEGER_MATH_GCD => gcd_fn m
  | NODE_INTEGER_MATH_LCM => lcm_fn m
  | NODE_INTEGER_MATH_NEGATE => negate_fn

/-! ## Sockets and `node_update` -/

end blender.nodes.node_fn_integer_math_cc

/-! # Theorems about `VKBeginQueryNode` -/

namespace blender.gpu.render_graph.VKBeginQueryNode

/-- C1: `build_links` returns the tracker and the node links exactly as they were before the
call, for every tracker, every node-links value and every CreateInfo: no access is recorded
and no edge is appended to the inputs or to the outputs. -/
theorem build_links_leaves_tracker_and_links (resources : VKResourceStateTracker)
    (node_links : VKRenderGraphNodeLinks) (create_info : CreateInfo) :
    build_links resources node_links create_info = (resources, node_links) ∧
    (build_links resources node_links create_info).1.accesses = resources.accesses ∧
    (build_links resources node_links create_info).2.inputs = node_links.inputs ∧
    (build_links resources node_links create_info).2.outputs = node_links.outputs ∧
    (build_links resources node_links create_info).2.edge_count = node_links.edge_count :=
  ⟨rfl, rfl, rfl, rfl, rfl⟩

/-- C2: `build_commands` appends exactly one command to the command buffer, the command is
`begin_query` with the pool, the index and the flags of the node data in that order, and the
commands recorded before are kept, in order, in front of it. -/
theorem build_commands_appends_one_begin_query (command_buffer : VKCommandBufferInterface)
    (data : Data) (r_bound_pipelines : VKBoundPipelines) :
    (build_commands command_buffer data r_bound_pipelines).1.commands =
      command_buffer.commands ++
        [VKCommand.begin_query data.vk_query_pool data.query_index
          data.vk_query_control_flags] ∧
    (build_commands command_buffer data r_bound_pipelines).1.commands.length =
      command_buffer.commands.length + 1 ∧
    (build_commands command_buffer data r_bound_pipelines).1.commands.take
      command_buffer.commands.length = command_buffer.commands := by
  refine ⟨rfl, ?_, ?_⟩
  · simp [build_commands, VKCommandBufferInterface.begin_query]
  · simp [build_commands, VKCommandBufferInterface.begin_query]

/-- C3: after `set_node_data node c` the `begin_query` payload of the node equals `c`, field
for field: the query pool, the query index and the control flags are the ones given in `c`. -/
theorem set_node_data_stores_create_info {ρ : Type} (node : VKRenderGraphNode ρ)
    (create_info : CreateInfo) :
    (set_node_data node create_info).begin_query = create_info ∧
    (set_node_data node create_info).begin_query.vk_query_pool = create_info.vk_query_pool ∧
    (set_node_data node create_info).begin_query.query_index = create_info.query_index ∧
    (set_node_data node create_info).begin_query.vk_query_control_flags =
      create_info.vk_query_control_flags :=
  ⟨rfl, rfl, rfl, rfl⟩

/-- C4: the bound-pipelines state after `build_commands` equals the one passed in, and so does
the node data. -/
theorem build_commands_keeps_bound_pipelines_and_data
    (command_buffer : VKCommandBufferInterface) (data : Data)
    (r_bound_pipelines : VKBoundPipelines) :
    (build_commands command_buffer data r_bound_pipelines).2.2 = r_bound_pipelines ∧
    (build_commands command_buffer data r_bound_pipelines).2.1 = data :=
  ⟨rfl, rfl⟩

/-- C5: running `set_node_data`, then `build_links`, then `build_commands` on the stored
`begin_query` data of the node gives: node links and tracker as before (zero edges when the
links start empty), and a command stream that is the old one followed by the single entry
`begin_query (pool, index, flags)` of the CreateInfo; the bound pipelines are unchanged. -/
theorem begin_query_scenario {ρ : Type} (node : VKRenderGraphNode ρ) (create_info : CreateInfo)
    (resources : VKResourceStateTracker) (node_links : VKRenderGraphNodeLinks)
    (command_buffer : VKCommandBufferInterface) (r_bound_pipelines : VKBoundPipelines) :
    let node1 := set_node_data node create_info
    let linked := build_links resources node_links create_info
    let recorded := build_commands command_buffer node1.begin_query r_bound_pipelines
    node1.begin_query = create_info ∧
    linked = (resources, node_links) ∧
    (build_links resources { inputs := [], outputs := [] } create_info).2.edge_count = 0 ∧
    recorded.1.commands = command_buffer.commands ++
      [VKCommand.begin_query create_info.vk_query_pool create_info.query_index
        create_info.vk_query_control_flags] ∧
    recorded.2.2 = r_bound_pipelines :=
  ⟨rfl, rfl, rfl, rfl, rfl⟩

/-- C6: calling `set_node_data` twice with the same CreateInfo gives the same node as calling
it once, and the stored payload is the same whatever the node (of whatever node type) held
before. -/
theorem set_node_data_idempotent {ρ σ : Type} (node : VKRenderGraphNode ρ)
    (other : VKRenderGraphNode σ) (create_info : CreateInfo) :
    set_node_data (set_node_data node create_info) create_info =
      set_node_data node create_info ∧
    (set_node_data node create_info).begin_query =
      (set_node_data other create_info).begin_query :=
  ⟨rfl, rfl⟩

/-- C7: `set_node_data` leaves the kind tag of the node and everything else it stores as they
were, only the `begin_query` payload is written; and the kind of the handler is the tag
`BEGIN_QUERY`, with resource type `NONE` and pipeline stage `VK_PIPELINE_STAGE_NONE`. -/
theorem set_node_data_keeps_kind {ρ : Type} (node : VKRenderGraphNode ρ)
    (create_info : CreateInfo) :
    (set_node_data node create_info).type = node.type ∧
    (set_node_data node create_info).rest = node.rest ∧
    node_info.node_type = VKNodeType.BEGIN_QUERY ∧
    node_info.resource_usages = VKResourceType.NONE ∧
    node_info.pipeline_stage = VK_PIPELINE_STAGE_NONE :=
  ⟨rfl, rfl, rfl, rfl, rfl⟩

end blender.gpu.render_graph.VKBeginQueryNode

/-! # Theorems about the integer-math node -/

namespace blender.nodes.node_fn_integer_math_cc

open NodeIntegerMathOperation

/-- The positions in the `switch` are pairwise different. -/
theorem switch_position_injective : Function.Injective switch_position := by
  intro a b h
  cases a <;> cases b <;> first | rfl | (exfalso; revert h; decide)

/-- With pairwise different case labels, the `switch` takes the `case` of the operation. -/
theorem get_multi_function_of_value {F : Type} (m : MathFunctions F)
    (value : NodeIntegerMathOperation → Int) (hv : Function.Injective value)
    (op : NodeIntegerMathOperation) :
    get_multi_function m value (value op) = some (case_result m op) := by
  cases op <;> simp [get_multi_function, case_result, hv.eq_iff]

/-- The eighteen static functions have pairwise different names. -/
theorem case_result_name_injective {F : Type} (m : MathFunctions F)
    (a b : NodeIntegerMathOperation) (h : (case_result m a).name = (case_result m b).name) :
    a = b := by
  cases a <;> cases b <;> first
    | rfl
    | (exfalso
       simp [case_result, add_fn, sub_fn, multiply_fn, divide_fn, divide_floor_fn,
         divide_ceil_fn, divide_round_fn, pow_fn, madd_fn, floored_mod_fn, mod_fn, abs_fn,
         sign_fn, min_fn, max_fn, gcd_fn, lcm_fn, negate_fn] at h)

/-- The quotient of two `int` values is an `int` value, except for `INT_MIN / -1`. -/
theorem is_int_tdiv (a b : Int) (ha : is_int a) (hb : is_int b)
    (h : ¬ (a = INT_MIN ∧ b = -1)) : is_int (Int.tdiv a b) := by
  unfold is_int INT_MIN INT_MAX at *
  have hq : (Int.tdiv a b).natAbs = a.natAbs / b.natAbs := Int.natAbs_tdiv a b
  by_cases hb1 : b = 1
  · subst hb1
    simp
    omega
  by_cases hb2 : b = -1
  · subst hb2
    have : Int.tdiv a (-1) = -a := by simp
    rw [this]
    omega
  by_cases hb0 : b = 0
  · subst hb0
    simp
  have h2 : 2 ≤ b.natAbs := by omega
  have hle : a.natAbs / b.natAbs ≤ a.natAbs / 2 :=
    Nat.div_le_div_left h2 (by decide)
  omega

/-- Away from `INT_MIN % -1`, the Modulo function is defined on every pair of `int` values: it
is 0 when `b = 0` and the truncated remainder otherwise, and the result is an `int` value. -/
theorem mod_fn_call_defined (a b : Int) (ha : is_int a) (hb : is_int b)
    (h : ¬ (a = INT_MIN ∧ b = -1)) :
    mod_fn.call [a, b] = some (if b = 0 then 0 else Int.tmod a b) := by
  by_cases hb0 : b = 0
  · simp [MultiFunction.call, mod_fn, hb0]
  · have hq := is_int_tdiv a b ha hb h
    simp [MultiFunction.call, mod_fn, hb0, int_rem, as_int, hq]

/-- The Floored Modulo function returns 0 when `b = 0`, whatever `math::mod_periodic` does. -/
theorem floored_mod_fn_call_zero {F : Type} (m : MathFunctions F) (a : Int) :
    (floored_mod_fn m).call [a, 0] = some 0 := by
  simp [MultiFunction.call, floored_mod_fn]

/-- C9, at the input where the code departs from the claim: the operands `INT_MIN` and `-1` are
both `int` values and `b` is not zero, so the Modulo function that `get_multi_function` returns
evaluates `a % b`, whose behaviour is undefined there: it has no defined result. -/
theorem modulo_int_min_minus_one_undefined :
    is_int (-2147483648) ∧ is_int (-1) ∧
    (get_multi_function sample_math switch_position
        (switch_position NODE_INTEGER_MATH_MODULO)).map MultiFunction.name = some "Modulo" ∧
    (get_multi_function sample_math switch_position
        (switch_position NODE_INTEGER_MATH_MODULO)).bind
      (fun f => f.call [-2147483648, -1]) = none := by
  refine ⟨by decide, by decide, ?_, ?_⟩
  · rw [get_multi_function_of_value _ _ switch_position_injective]
    rfl
  · rw [get_multi_function_of_value _ _ switch_position_injective]
    simp [case_result, MultiFunction.call, mod_fn, int_rem, as_int, is_int, INT_MIN, INT_MAX]

/-- C10: for each of the eighteen operations `get_multi_function` returns a function, not the
null pointer behind the unreachable assertion; the function is the one of the `case` of that
operation, and a different operation gets a different function. -/
theorem get_multi_function_total_and_distinct {F : Type} (m : MathFunctions F)
    (value : NodeIntegerMathOperation → Int) (hv : Function.Injective value)
    (op other : NodeIntegerMathOperation) :
    get_multi_function m value (value op) ≠ none ∧
    get_multi_function m value (value op) = some (case_result m op) ∧
    (other ≠ op →
      get_multi_function m value (value other) ≠ get_multi_function m value (value op)) := by
  rw [get_multi_function_of_value m value hv op, get_multi_function_of_value m value hv other]
  refine ⟨by simp, rfl, ?_⟩
  intro hne h
  apply hne
  apply case_result_name_injective m
  have h1 : case_result m other = case_result m op := Option.some.inj h
  rw [h1]

/-- Witness of C10: the theorem with the enumerators numbered in the order of the `switch`, at
the operations ADD and NEGATE. -/
theorem get_multi_function_total_and_distinct_witness :
    Function.Injective switch_position ∧
    NODE_INTEGER_MATH_NEGATE ≠ NODE_INTEGER_MATH_ADD ∧
    get_multi_function sample_math switch_position 0 ≠ none ∧
    get_multi_function sample_math switch_position 17 ≠
      get_multi_function sample_math switch_position 0 := by
  have h := get_multi_function_total_and_distinct sample_math switch_position
    switch_position_injective NODE_INTEGER_MATH_ADD NODE_INTEGER_MATH_NEGATE
  exact ⟨switch_position_injective, by decide, h.1, h.2.2 (by decide)⟩

end blender.nodes.node_fn_integer_math_cc
